import Mathlib

/-!
Verification development for the claim-verification frontend and its
spec-level pipeline model.

Definitions are shallow embeddings of the TypeScript sources:
- `ValidationResult`, `VerificationStatus`, field lists: `frontend/types/index.ts`
  and the service types module.
- `handleResponse`, `apiClient`: the API client module.
- `getByJobIdUrl`: `sentencesApi.getByJobId`.
- `filteredSentences`: the verify page's sentence filter.
- `canStartVerification`, the progress renderings: the project detail client
  and `VerificationViewer.tsx`.
- `projectsApiMethods`, `handleSubmitApiCalls`: the projects service and the
  new-project submit handler.
The backend pipeline (result merger, orchestrator `startJob`, cancellation)
is not in the frontend sources; those definitions are modelled from the spec
and are marked as such in their doc comments.
-/

namespace Verify

/-- Validation labels of the public interface.  Embeds the `ValidationResult`
enum of `frontend/types/index.ts` (lines 14-19) and of the services types
module, which both list four values: `validated`, `uncertain`, `incorrect`,
`pending`. -/
inductive ValidationResult
  | validated
  | uncertain
  | incorrect
  | pending
deriving DecidableEq, BEq, Repr, Fintype

/-- String value of each `ValidationResult` enum member, as in the source. -/
def ValidationResult.toValue : ValidationResult → String
  | validated => "validated"
  | uncertain => "uncertain"
  | incorrect => "incorrect"
  | pending => "pending"

/-- Job statuses.  Embeds the `VerificationStatus` enum of
`frontend/types/index.ts` (lines 6-12) and of the services types module:
`pending`, `indexing`, `processing`, `completed`, `failed`. -/
inductive VerificationStatus
  | pending
  | indexing
  | processing
  | completed
  | failed
deriving DecidableEq, BEq, Repr, Fintype

/-- Modelled from the spec: terminal job states.  The spec's state machine
(§4.5) makes COMPLETED and FAILED the only states with no outgoing
transitions; the job record is "terminal once COMPLETED or FAILED" (§3). -/
def VerificationStatus.isTerminal : VerificationStatus → Bool
  | completed => true
  | failed => true
  | _ => false

/-- Modelled from the spec: the status a cancelled job ends in once drained.
Per §4.5 `cancelJob`, the job transitions to a terminal CANCELLED-equivalent
state "treated as FAILED with a distinguishing message". -/
def cancelDrainedStatus : VerificationStatus := .failed

/-- Modelled from the spec: the distinguishing message attached when a
cancelled job is drained into FAILED. -/
def cancelDrainedMessage : String := "cancelled"

/-- One backend verifier's answer, as consumed by the result merger:
a label and a confidence in [0,1] (modelled as a rational). -/
structure BackendResult where
  label : ValidationResult
  confidence : ℚ
deriving DecidableEq, Repr

/-- Modelled from the spec: merge rules 3 and 4 of §4.3 for the case where
both verifier backends responded.  If the two labels agree and both
confidences are at or above the high-agreement threshold, the merged result
keeps that label with the mean of the two confidences; otherwise the merged
result is UNCERTAIN with the minimum of the two confidences.  The backend
merger is not in the frontend sources. -/
def mergeBothResponded (threshold : ℚ) (r1 r2 : BackendResult) : BackendResult :=
  if r1.label = r2.label ∧ threshold ≤ r1.confidence ∧ threshold ≤ r2.confidence then
    ⟨r1.label, (r1.confidence + r2.confidence) / 2⟩
  else
    ⟨.uncertain, min r1.confidence r2.confidence⟩

/-- A job as carried on a project's `latest_job`; only the status matters to
the start gate. -/
structure VerificationJob where
  status : VerificationStatus
deriving DecidableEq, Repr

/-- Project shape consumed by the project detail client: an optional main
document, a list of supporting documents, and an optional latest job. -/
structure ProjectWithStats where
  main_document : Option String
  supporting_documents : List String
  latest_job : Option VerificationJob
deriving DecidableEq, Repr

/-- `const hasMainDocument = !!project.main_document` of the project detail
client. -/
def hasMainDocument (p : ProjectWithStats) : Bool :=
  p.main_document.isSome

/-- `const hasSupportingDocs = project.supporting_documents.length > 0` of
the project detail client. -/
def hasSupportingDocs (p : ProjectWithStats) : Bool :=
  decide (0 < p.supporting_documents.length)

/-- `const canStartVerification = hasMainDocument && hasSupportingDocs &&
!project.latest_job` of the project detail client: the Start Verification
button is offered only when no latest job exists at all. -/
def canStartVerification (p : ProjectWithStats) : Bool :=
  hasMainDocument p && hasSupportingDocs p && p.latest_job.isNone

/-- One job record in the backend job store, keyed by document. -/
structure JobRecord where
  document_id : String
  status : VerificationStatus
deriving DecidableEq, Repr

/-- Modelled from the spec: the orchestrator's `startJob` (§4.5), which is
not in the frontend sources.  It fails with `ConflictError` if a
non-terminal job already exists for the document, creating no new record;
otherwise it appends a fresh PENDING job for the document. -/
def startJob (documentId : String) (jobs : List JobRecord) :
    Except String (List JobRecord) :=
  if jobs.any (fun j => j.document_id == documentId && !j.status.isTerminal) then
    .error "ConflictError"
  else
    .ok (jobs ++ [⟨documentId, .pending⟩])

/-- Value handed to the `Progress` bar by the project detail client's
Verification Progress card: `project.latest_job.progress * 100`. -/
def projectDetailProgressValue (progress : ℚ) : ℚ := progress * 100

/-- Value handed to the `Progress` bar by `VerificationViewer.tsx` line 88:
`job.progress`, with no scaling. -/
def verificationViewerProgressValue (progress : ℚ) : ℚ := progress

/-- Names of the methods defined on the `projectsApi` service object. -/
def projectsApiMethods : List String :=
  ["getAll", "getById", "create", "update", "delete",
   "uploadMainDocument", "uploadSupportingDocuments", "startVerification"]

/-- Names of the `projectsApi` methods invoked, in order, by the new-project
page's `handleSubmit` when `n` supporting files are selected: create the
project, upload the main document, then one `uploadSupportingDocument` call
per supporting file. -/
def handleSubmitApiCalls (n : Nat) : List String :=
  ["create", "uploadMainDocument"] ++ List.replicate n "uploadSupportingDocument"

/-- Field names of the `Citation` interface in `frontend/types/index.ts`
(lines 50-61), in declaration order. -/
def citationFields : List String :=
  ["source_document_id", "cited_text", "page_number", "start_char", "end_char",
   "similarity_score", "context_before", "context_after", "filename", "relevance"]

/-- Field names of the `Citation` interface in the services types module
(lines 129-137), in declaration order. -/
def citationFieldsServices : List String :=
  ["doc_id", "doc_name", "page", "excerpt", "match_score",
   "context_before", "context_after"]

/-- Field names of the `VerifiedSentence` interface in
`frontend/types/index.ts` (lines 63-76), in declaration order. -/
def verifiedSentenceFields : List String :=
  ["id", "sentence_index", "content", "page_number", "start_char", "end_char",
   "validation_result", "confidence_score", "reasoning", "citations",
   "manually_reviewed", "reviewer_notes"]

/-- Field names of the `VerifiedSentence` interface in the services types
module (lines 139-155), in declaration order. -/
def verifiedSentenceFieldsServices : List String :=
  ["id", "verification_job_id", "sentence_index", "content", "page_number",
   "start_char", "end_char", "validation_result", "confidence_score",
   "reasoning", "citations", "manually_reviewed", "reviewer_notes",
   "created_at", "updated_at"]

/-- Citation field names as the spec's result JSON shape (§6) lists them;
written from the spec's words for comparison with the source types. -/
def specCitationFields : List String :=
  ["source_document_id", "cited_text", "page_number", "similarity_score",
   "relevance_rank", "context_before", "context_after"]

/-- Per-claim result field names as the spec's result JSON shape (§6) lists
them; written from the spec's words for comparison with the source types. -/
def specResultFields : List String :=
  ["sentence_index", "content", "page_number", "validation_result",
   "confidence_score", "reasoning", "citations", "manually_reviewed",
   "reviewer_notes"]

/-- The slice of a parsed JSON body that `handleResponse` inspects: the
optional `detail` field.  A missing `detail` is `none`. -/
structure JsonBody where
  detail : Option String
deriving DecidableEq, Repr

/-- An HTTP response as `handleResponse` sees it: the `ok` flag, status code,
status text, and the result of `response.json()` (`none` when the body is
not parseable JSON). -/
structure HttpResponse where
  ok : Bool
  status : Nat
  statusText : String
  jsonBody : Option JsonBody
deriving DecidableEq, Repr

/-- Failure modes of `handleResponse`: the `APIError` it constructs for
non-OK responses, or the JSON parse failure `response.json()` raises on an
OK response with a non-JSON body. -/
inductive HandleError
  | apiError (message : String) (status : Nat)
  | parseError
deriving DecidableEq, Repr

/-- The fallback error message template of `handleResponse`:
`HTTP <status>: <statusText>`. -/
def fallbackMessage (r : HttpResponse) : String :=
  "HTTP " ++ toString r.status ++ ": " ++ r.statusText

/-- `handleResponse` of the API client module.  For a non-OK response it
throws an `APIError` carrying the HTTP status and the message
`errorData.detail || fallback`, where `errorData` is the parsed body or `{}`
when parsing fails (`.catch(() => ({}))`); JavaScript truthiness makes an
absent or empty `detail` fall through to the fallback.  For an OK response
it returns the parsed JSON body. -/
def handleResponse (r : HttpResponse) : Except HandleError JsonBody :=
  if r.ok then
    match r.jsonBody with
    | some b => .ok b
    | none => .error .parseError
  else
    let errorData : JsonBody := r.jsonBody.getD ⟨none⟩
    let message : String :=
      match errorData.detail with
      | some d => if d = "" then fallbackMessage r else d
      | none => fallbackMessage r
    .error (.apiError message r.status)

/-- The error message claim C5 prescribes, written from the spec's words:
the backend's `detail` field when the error body is JSON (undefined when the
JSON body has no `detail`), the fallback when the body is not JSON. -/
def specMessage (r : HttpResponse) : Option String :=
  match r.jsonBody with
  | some b => b.detail
  | none => some (fallbackMessage r)

/-- HTTP method used by `sentencesApi.getByJobId` (it calls
`apiClient.get`). -/
def getByJobIdMethod : String := "GET"

/-- Default `page` argument of `sentencesApi.getByJobId`. -/
def pageDefault : Nat := 1

/-- Default `perPage` argument of `sentencesApi.getByJobId`. -/
def perPageDefault : Nat := 50

/-- URL built by `sentencesApi.getByJobId`: the sentences path with `page`
and `per_page` query parameters, plus `&status=<status>` appended when the
optional status argument is supplied (the source's `if (status)` truthiness
check only skips the empty string). -/
def getByJobIdUrl (jobId : String) (page perPage : Nat)
    (status : Option ValidationResult) : String :=
  let base := "/api/verification-jobs/" ++ jobId ++ "/sentences?page=" ++
    toString page ++ "&per_page=" ++ toString perPage
  match status with
  | none => base
  | some s => if s.toValue = "" then base else base ++ "&status=" ++ s.toValue

/-- Substring test on character lists: JavaScript's
`haystack.includes(q)` with `q` the first argument. -/
def substrB (q : List Char) : List Char → Bool
  | [] => q.isEmpty
  | c :: rest => q.isPrefixOf (c :: rest) || substrB q rest

/-- `haystack.includes(q)` on strings. -/
def strIncludes (hay q : String) : Bool :=
  substrB q.data hay.data

/-- JavaScript's `toLowerCase()`: lower-case every character. -/
def toLowerString (s : String) : String :=
  ⟨s.data.map Char.toLower⟩

/-- The slice of a verified-sentence row that the verify page's filter
reads: its `content` and its `status` string. -/
structure SentenceView where
  content : String
  status : String
deriving DecidableEq, Repr

/-- `filteredSentences` of the verify page: keep the sentences whose
lower-cased content includes the lower-cased search query and whose status
equals the selected filter (or any status when the filter is `all`). -/
def filteredSentences (sentences : List SentenceView)
    (searchQuery statusFilter : String) : List SentenceView :=
  sentences.filter fun s =>
    strIncludes (toLowerString s.content) (toLowerString searchQuery) &&
    ((statusFilter == "all") || (s.status == statusFilter))

end Verify

namespace Verify

/-- C1: when both backends respond, agreement on a label with both
confidences at or above the threshold merges to that label with the mean
confidence; disagreement, or agreement below the threshold, merges to
UNCERTAIN with the minimum confidence. -/
theorem c1_merge_policy (threshold : ℚ) (r1 r2 : BackendResult) :
    (r1.label = r2.label → threshold ≤ r1.confidence → threshold ≤ r2.confidence →
      mergeBothResponded threshold r1 r2 =
        ⟨r1.label, (r1.confidence + r2.confidence) / 2⟩) ∧
    (r1.label ≠ r2.label ∨ r1.confidence < threshold ∨ r2.confidence < threshold →
      mergeBothResponded threshold r1 r2 =
        ⟨.uncertain, min r1.confidence r2.confidence⟩) := by
  constructor
  · intro hl h1 h2
    simp [mergeBothResponded, hl, h1, h2]
  · intro h
    have hcond : ¬ (r1.label = r2.label ∧ threshold ≤ r1.confidence ∧
        threshold ≤ r2.confidence) := by
      rcases h with h | h | h
      · exact fun hc => h hc.1
      · exact fun hc => absurd hc.2.1 (not_le.mpr h)
      · exact fun hc => absurd hc.2.2 (not_le.mpr h)
    simp [mergeBothResponded, hcond]

/-- C1 witness: the two spec examples.  Agreement VALIDATED at 0.95 and 0.93
with threshold 0.9 merges to VALIDATED at 0.94; VALIDATED at 0.92 against
UNCERTAIN at 0.4 merges to UNCERTAIN at 0.4. -/
theorem c1_merge_policy_witness :
    mergeBothResponded (9/10) ⟨.validated, 95/100⟩ ⟨.validated, 93/100⟩ =
      ⟨.validated, 94/100⟩ ∧
    mergeBothResponded (9/10) ⟨.validated, 92/100⟩ ⟨.uncertain, 4/10⟩ =
      ⟨.uncertain, 4/10⟩ := by
  constructor
  · have h := (c1_merge_policy (9/10) ⟨.validated, 95/100⟩ ⟨.validated, 93/100⟩).1
      rfl (by norm_num) (by norm_num)
    rw [h]
    norm_num
  · have h := (c1_merge_policy (9/10) ⟨.validated, 92/100⟩ ⟨.uncertain, 4/10⟩).2
      (Or.inl (by decide))
    rw [h]
    norm_num [min_def]

/-- C2 counterexample: the `ValidationResult` enum of the public interface
contains the value `pending`, which is none of VALIDATED, UNCERTAIN,
INCORRECT. -/
theorem c2_counterexample :
    ([ValidationResult.validated, ValidationResult.uncertain,
      ValidationResult.incorrect].contains ValidationResult.pending) = false := by
  decide

/-- C2 (amended): every value of the `ValidationResult` enum is one of the
four labels VALIDATED, UNCERTAIN, INCORRECT, PENDING. -/
theorem c2_labels :
    ∀ v : ValidationResult,
      v = .validated ∨ v = .uncertain ∨ v = .incorrect ∨ v = .pending := by
  decide

/-- C8: every verification job status is one of exactly the five values
PENDING, INDEXING, PROCESSING, COMPLETED, FAILED (there is no CANCELLED
member); a cancelled job drains into FAILED with a distinguishing message;
and COMPLETED and FAILED are exactly the terminal states. -/
theorem c8_status_space :
    (∀ s : VerificationStatus,
      s = .pending ∨ s = .indexing ∨ s = .processing ∨
      s = .completed ∨ s = .failed) ∧
    cancelDrainedStatus = .failed ∧
    cancelDrainedMessage = "cancelled" ∧
    (∀ s : VerificationStatus,
      s.isTerminal = true ↔ (s = .completed ∨ s = .failed)) := by
  refine ⟨by decide, rfl, rfl, by decide⟩

/-- C3 counterexample: a project with a main document, a supporting document,
and a latest job in the terminal COMPLETED state still has
`canStartVerification = false` — the UI start gate requires that no job
exists at all, so a terminal latest job does not allow starting a new
verification. -/
theorem c3_counterexample :
    hasMainDocument ⟨some "main.pdf", ["support.pdf"], some ⟨.completed⟩⟩ = true ∧
    hasSupportingDocs ⟨some "main.pdf", ["support.pdf"], some ⟨.completed⟩⟩ = true ∧
    VerificationStatus.isTerminal .completed = true ∧
    canStartVerification ⟨some "main.pdf", ["support.pdf"], some ⟨.completed⟩⟩ = false := by
  exact ⟨rfl, rfl, rfl, rfl⟩

/-- C3 (amended): the spec-modelled backend `startJob` rejects with
`ConflictError` and creates no job record exactly when a non-terminal job
exists for the document, and creates a fresh PENDING job when every existing
job for the document is terminal; the frontend gate, however, offers the
start action only when the project has a main document, at least one
supporting document, and no latest job at all — terminal or not. -/
theorem c3_start_gate (d : String) (jobs : List JobRecord) (p : ProjectWithStats) :
    ((∃ j ∈ jobs, j.document_id = d ∧ j.status.isTerminal = false) →
      startJob d jobs = Except.error "ConflictError") ∧
    ((∀ j ∈ jobs, j.document_id = d → j.status.isTerminal = true) →
      startJob d jobs = Except.ok (jobs ++ [⟨d, .pending⟩])) ∧
    (canStartVerification p = true ↔
      p.main_document.isSome = true ∧ p.supporting_documents ≠ [] ∧
      p.latest_job = none) := by
  refine ⟨?_, ?_, ?_⟩
  · rintro ⟨j, hj, hd, ht⟩
    have hm : jobs.any (fun j => j.document_id == d && !j.status.isTerminal) = true := by
      rw [List.any_eq_true]
      exact ⟨j, hj, by simp [hd, ht]⟩
    simp [startJob, hm]
  · intro h
    have hm : jobs.any (fun j => j.document_id == d && !j.status.isTerminal) = false := by
      rw [Bool.eq_false_iff]
      intro hc
      rw [List.any_eq_true] at hc
      obtain ⟨j, hj, hcond⟩ := hc
      rw [Bool.and_eq_true, beq_iff_eq, Bool.not_eq_true'] at hcond
      exact absurd (h j hj hcond.1) (by simp [hcond.2])
    simp [startJob, hm]
  · constructor
    · intro h
      rw [canStartVerification, Bool.and_eq_true, Bool.and_eq_true] at h
      refine ⟨h.1.1, ?_, ?_⟩
      · have := h.1.2
        rw [hasSupportingDocs, decide_eq_true_iff] at this
        exact List.ne_nil_of_length_pos this
      · exact Option.isNone_iff_eq_none.mp h.2
    · rintro ⟨h1, h2, h3⟩
      rw [canStartVerification, Bool.and_eq_true, Bool.and_eq_true]
      refine ⟨⟨h1, ?_⟩, by simp [h3]⟩
      rw [hasSupportingDocs, decide_eq_true_iff]
      exact List.length_pos.mpr h2

/-- C3 witness: a second start while a PROCESSING job exists for the document
is rejected and creates no record; a store whose only job for the document is
COMPLETED admits a fresh PENDING job; and a concrete complete project with no
job passes the frontend gate. -/
theorem c3_start_gate_witness :
    startJob "doc" [⟨"doc", .processing⟩] = Except.error "ConflictError" ∧
    startJob "doc" [⟨"doc", .completed⟩] =
      Except.ok [⟨"doc", .completed⟩, ⟨"doc", .pending⟩] ∧
    canStartVerification ⟨some "main.pdf", ["support.pdf"], none⟩ = true := by
  refine ⟨?_, ?_, ?_⟩
  · exact (c3_start_gate "doc" [⟨"doc", .processing⟩]
      ⟨none, [], none⟩).1 ⟨⟨"doc", .processing⟩, by simp, rfl, rfl⟩
  · exact (c3_start_gate "doc" [⟨"doc", .completed⟩] ⟨none, [], none⟩).2.1
      (by intro j hj hd; simp at hj; subst hj; rfl)
  · exact (c3_start_gate "doc" [] ⟨some "main.pdf", ["support.pdf"], none⟩).2.2.mpr
      ⟨rfl, by simp, rfl⟩

/-- C9: the two progress bars disagree on the scale of `job.progress`.  At
progress 1/2 the project detail card passes 50 to the bar while the
verification viewer passes 1/2 — the viewer omits the multiplication by 100
that the spec's progress ∈ [0,1] data model requires. -/
theorem c9_divergence :
    projectDetailProgressValue (1/2) = 50 ∧
    verificationViewerProgressValue (1/2) = 1/2 ∧
    projectDetailProgressValue (1/2) - verificationViewerProgressValue (1/2) = 99/2 := by
  refine ⟨by norm_num [projectDetailProgressValue], rfl, ?_⟩
  norm_num [projectDetailProgressValue, verificationViewerProgressValue]

/-- C10: with one supporting file selected, `handleSubmit` invokes the
method name `uploadSupportingDocument`, which is not among the methods
defined on the `projectsApi` service object (the service defines
`uploadSupportingDocuments`, plural) — so the upload loop cannot complete. -/
theorem c10_divergence :
    handleSubmitApiCalls 1 = ["create", "uploadMainDocument", "uploadSupportingDocument"] ∧
    projectsApiMethods.contains "uploadSupportingDocument" = false ∧
    projectsApiMethods.contains "uploadSupportingDocuments" = true := by
  refine ⟨rfl, by decide, by decide⟩

/-- C4 counterexample: the spec's citation shape lists `relevance_rank`, but
neither `Citation` type in the sources has such a field; and the result
types carry an `id` field the spec's shape does not list, so neither shape
is "exactly" the claimed one. -/
theorem c4_counterexample :
    specCitationFields.contains "relevance_rank" = true ∧
    citationFields.contains "relevance_rank" = false ∧
    citationFieldsServices.contains "relevance_rank" = false ∧
    verifiedSentenceFields.contains "id" = true ∧
    specResultFields.contains "id" = false := by
  decide

/-- C4 (amended): the types-module `Citation` has every spec-listed citation
field except `relevance_rank` (which exists nowhere) plus `start_char`,
`end_char`, `filename`, `relevance`; the services-module `Citation` uses
different names altogether (`doc_id`, `doc_name`, `page`, `excerpt`,
`match_score`, `context_before`, `context_after`); both `VerifiedSentence`
types have all nine spec-listed result fields plus identification and
timestamp extras. -/
theorem c4_field_shapes :
    (specCitationFields.removeAll ["relevance_rank"]).all
      (fun f => citationFields.contains f) = true ∧
    citationFields.contains "relevance_rank" = false ∧
    citationFieldsServices.contains "relevance_rank" = false ∧
    citationFields.removeAll specCitationFields =
      ["start_char", "end_char", "filename", "relevance"] ∧
    citationFieldsServices.removeAll specCitationFields =
      ["doc_id", "doc_name", "page", "excerpt", "match_score"] ∧
    specResultFields.all (fun f => verifiedSentenceFields.contains f) = true ∧
    specResultFields.all (fun f => verifiedSentenceFieldsServices.contains f) = true ∧
    verifiedSentenceFields.removeAll specResultFields =
      ["id", "start_char", "end_char"] ∧
    verifiedSentenceFieldsServices.removeAll specResultFields =
      ["id", "verification_job_id", "start_char", "end_char",
       "created_at", "updated_at"] := by
  decide

/-- C5 counterexample: a 409 response whose body is the JSON object `{}`
(parseable, but with no `detail` field) is thrown as an `APIError` with the
fallback message `HTTP 409: Conflict`, while the claim's message rule
prescribes the (absent) `detail` field for any JSON body. -/
theorem c5_counterexample :
    handleResponse ⟨false, 409, "Conflict", some ⟨none⟩⟩ =
      Except.error (.apiError "HTTP 409: Conflict" 409) ∧
    specMessage ⟨false, 409, "Conflict", some ⟨none⟩⟩ = none := by
  exact ⟨rfl, rfl⟩

/-- C5 (amended): every non-OK response is thrown as an `APIError` whose
status equals the HTTP status code and whose message is the body's `detail`
field when the body is JSON with a non-empty `detail`, and the fallback
`HTTP <status>: <statusText>` otherwise (body not JSON, `detail` missing, or
`detail` empty); every OK response with a parseable JSON body returns that
parsed body. -/
theorem c5_response_contract (r : HttpResponse) :
    (∀ b d, r.ok = false → r.jsonBody = some b → b.detail = some d → d ≠ "" →
      handleResponse r = Except.error (.apiError d r.status)) ∧
    (∀ b, r.ok = false → r.jsonBody = some b →
      (b.detail = none ∨ b.detail = some "") →
      handleResponse r = Except.error (.apiError (fallbackMessage r) r.status)) ∧
    (r.ok = false → r.jsonBody = none →
      handleResponse r = Except.error (.apiError (fallbackMessage r) r.status)) ∧
    (∀ b, r.ok = true → r.jsonBody = some b →
      handleResponse r = Except.ok b) := by
  refine ⟨?_, ?_, ?_, ?_⟩
  · intro b d hok hbody hdetail hne
    simp [handleResponse, hok, hbody, hdetail, hne]
  · intro b hok hbody hdetail
    rcases hdetail with h | h <;> simp [handleResponse, hok, hbody, h]
  · intro hok hbody
    simp [handleResponse, hok, hbody]
  · intro b hok hbody
    simp [handleResponse, hok, hbody]

/-- C5 witness: a 409 with a JSON `detail` surfaces that detail; a 502 with
a non-JSON body surfaces the fallback; a 200 with a JSON body returns it. -/
theorem c5_response_contract_witness :
    handleResponse ⟨false, 409, "Conflict", some ⟨some "Job already active"⟩⟩ =
      Except.error (.apiError "Job already active" 409) ∧
    handleResponse ⟨false, 502, "Bad Gateway", none⟩ =
      Except.error (.apiError "HTTP 502: Bad Gateway" 502) ∧
    handleResponse ⟨true, 200, "OK", some ⟨none⟩⟩ = Except.ok ⟨none⟩ := by
  refine ⟨?_, ?_, ?_⟩
  · exact (c5_response_contract _).1 ⟨some "Job already active"⟩ "Job already active"
      rfl rfl rfl (by decide)
  · have hmsg : fallbackMessage ⟨false, 502, "Bad Gateway", none⟩ =
        "HTTP 502: Bad Gateway" := by decide
    have h := (c5_response_contract ⟨false, 502, "Bad Gateway", none⟩).2.2.1 rfl rfl
    rw [hmsg] at h
    exact h
  · exact (c5_response_contract _).2.2.2 ⟨none⟩ rfl rfl

/-- C6: `getByJobId` issues a GET whose URL is the job's sentences path
carrying `page` and `per_page`; the `status` query parameter is appended
exactly when a status filter is supplied; the defaults are page 1 and
per_page 50. -/
theorem c6_get_by_job_id (jobId : String) (page perPage : Nat) :
    getByJobIdMethod = "GET" ∧
    getByJobIdUrl jobId page perPage none =
      "/api/verification-jobs/" ++ jobId ++ "/sentences?page=" ++
        toString page ++ "&per_page=" ++ toString perPage ∧
    (∀ s : ValidationResult,
      getByJobIdUrl jobId page perPage (some s) =
        getByJobIdUrl jobId page perPage none ++ "&status=" ++ s.toValue) ∧
    pageDefault = 1 ∧ perPageDefault = 50 := by
  refine ⟨rfl, rfl, ?_, rfl, rfl⟩
  intro s
  cases s <;> rfl

/-- The empty pattern is a substring of everything. -/
theorem substrB_nil (l : List Char) : substrB [] l = true := by
  induction l with
  | nil => rfl
  | cons c rest ih => simp [substrB]

/-- Swapping the two conjuncts of the verify page's filter predicate once
the `all` branch is ruled out. -/
theorem filter_pred_swap (f q : String) (hf : (f == "all") = false)
    (s : SentenceView) :
    (strIncludes (toLowerString s.content) (toLowerString q) &&
      ((f == "all") || (s.status == f))) =
    ((s.status == f) && strIncludes (toLowerString s.content) (toLowerString q)) := by
  rw [hf, Bool.false_or, Bool.and_comm]

/-- C7: for each of the three selectable filters the displayed list is
exactly the sentences whose status equals the selected label and whose
content contains the search query case-insensitively; with filter `all` and
an empty query every sentence is displayed.  (The third select option's
value is `rejected`, and the filter compares statuses to that literal.) -/
theorem c7_displayed_sentences (sentences : List SentenceView) (query : String) :
    (filteredSentences sentences query "validated" =
      sentences.filter fun s => (s.status == "validated") &&
        strIncludes (toLowerString s.content) (toLowerString query)) ∧
    (filteredSentences sentences query "uncertain" =
      sentences.filter fun s => (s.status == "uncertain") &&
        strIncludes (toLowerString s.content) (toLowerString query)) ∧
    (filteredSentences sentences query "rejected" =
      sentences.filter fun s => (s.status == "rejected") &&
        strIncludes (toLowerString s.content) (toLowerString query)) ∧
    filteredSentences sentences "" "all" = sentences := by
  refine ⟨?_, ?_, ?_, ?_⟩
  · exact List.filter_congr fun s _ => filter_pred_swap "validated" query (by decide) s
  · exact List.filter_congr fun s _ => filter_pred_swap "uncertain" query (by decide) s
  · exact List.filter_congr fun s _ => filter_pred_swap "rejected" query (by decide) s
  · refine List.filter_eq_self.mpr fun s _ => ?_
    have hinc : strIncludes (toLowerString s.content) (toLowerString "") = true := by
      simpa [strIncludes, toLowerString] using substrB_nil (toLowerString s.content).data
    simp [hinc]

end Verify
